import Mathlib

/-!
# Verification of the ThreatExchange `BaseClient` HTTP layer

A shallow embedding, in Lean 4, of the low-level HTTP client of the
`python-threatexchange` repository (`client/base.py` and
`client/models.py`), together with theorems settling the frozen claims
about it.

Modelling conventions:
* Python JSON values become the inductive type `Json`; a Python dict of
  string keys is the association list `Dict := List (String × Json)`,
  in insertion order, with `setKey` mirroring Python dict assignment
  (replace in place if present, else append).
* Python exceptions that the client raises deliberately become the
  `TxFailure` type; a Python-level crash (e.g. `AttributeError` on a
  non-dict) is modelled with an explicit error constructor or an
  `Except.error`.
* The network is an oracle: either a list of page bodies (pagination) or
  a function from the attempt index to a response (retry loop).
-/

/-- A JSON value, as produced by `response.json()` in Python. -/
inductive Json where
  | null : Json
  | bool : Bool → Json
  | num : Int → Json
  | str : String → Json
  | arr : List Json → Json
  | obj : List (String × Json) → Json

/-- A Python dict with string keys, in insertion order. -/
def Dict := List (String × Json)

/-- Python dict assignment `d[k] = v`: replace the value in place when the key
is already present, otherwise append the new binding at the end. -/
def setKey : List (String × Json) → String → Json → List (String × Json)
  | [], k, v => [(k, v)]
  | (k', v') :: rest, k, v =>
    if k' = k then (k', v) :: rest else (k', v') :: setKey rest k v

/-- Python dict membership, `k in d`. -/
def hasKey : List (String × Json) → String → Bool
  | [], _ => false
  | (k', _) :: rest, k => k' = k || hasKey rest k

/-- Python dict lookup `d.get(k)`: `none` models Python `None`. -/
def getKey : List (String × Json) → String → Option Json
  | [], _ => none
  | (k', v') :: rest, k => if k' = k then some v' else getKey rest k

/-- Python dict merge, starred `a` then starred `b`: start from `a` and assign every
binding of `b` in order. -/
def dictMerge (a b : List (String × Json)) : List (String × Json) :=
  b.foldl (fun acc kv => setKey acc kv.1 kv.2) a

/-- The outgoing HTTP request handed to `requests.Session.request` by
`BaseClient._request`: `params` is the query-parameter dict (sent only
for GET), `body` the form-encoded data dict (sent only for non-GET). -/
structure WireRequest where
  method : String
  url : String
  params : Option (List (String × Json))
  body : Option (List (String × Json))

/-- The wire request of `BaseClient._request` (base.py lines 110-121): after
`params = params or \x7b\x7d` the line `params["access_token"] = self.access_token`
adds the token to the parameter dict, and the session call sends
`params=params if method == "GET" else None` and
`data=merge(params, data or empty) if method != "GET" else None`. -/
def requestWire (tok method url : String) (params : List (String × Json))
    (data : Option (List (String × Json))) : WireRequest :=
  let p := setKey params "access_token" (Json.str tok)
  { method := method
    url := url
    params := if method = "GET" then some p else none
    body := if method = "GET" then none
            else some (dictMerge p (data.getD [])) }

/-- Whether the access token appears among the outgoing request's query
parameters. -/
def tokenInQuery (w : WireRequest) : Bool :=
  match w.params with
  | some d => hasKey d "access_token"
  | none => false

/-- Whether the access token appears among the outgoing request's
form-encoded body fields. -/
def tokenInBody (w : WireRequest) : Bool :=
  match w.body with
  | some d => hasKey d "access_token"
  | none => false

/-- Python `s.lower()` on a string (character-wise lowering). -/
def lowerStr (s : String) : String := String.mk (s.data.map Char.toLower)

/-- Whether `t` is a leading segment of `s` (on character lists). -/
def leadsWith : List Char → List Char → Bool
  | [], _ => true
  | _ :: _, [] => false
  | t :: ts, s :: ss => t = s && leadsWith ts ss

/-- Whether `t` occurs as a contiguous segment of `s` (on character lists). -/
def subOccurs (t : List Char) : List Char → Bool
  | [] => leadsWith t []
  | c :: ss => leadsWith t (c :: ss) || subOccurs t ss

/-- Python substring test `t in s`: `t` occurs as a substring of `s`. -/
def containsSub (s t : String) : Bool := subOccurs t.data s.data

/-- Decimal digit strings for `int(s)`: Python `int()` on a run of
decimal digits; any other shape raises `ValueError`, modelled as `none`. -/
def digitsToNat : List Char → Option Nat
  | [] => none
  | [c] => if c.isDigit then some (c.toNat - '0'.toNat) else none
  | c :: cs =>
    if c.isDigit then
      match digitsToNat cs with
      | some n => some ((c.toNat - '0'.toNat) * 10 ^ cs.length + n)
      | none => none
    else none

/-- Python `int(s)` on a string (optional sign, then decimal digits). -/
def pyInt (s : String) : Option Int :=
  match s.data with
  | '-' :: cs => (digitsToNat cs).map (fun n => -(n : Int))
  | '+' :: cs => (digitsToNat cs).map (fun n => (n : Int))
  | cs => (digitsToNat cs).map (fun n => (n : Int))

/-- Client configuration relevant to retries, from `BaseClient.__init__`. -/
structure ClientConfig where
  accessToken : String
  retryOnRateLimit : Bool
  maxRetries : Nat

/-- An HTTP response as `_handle_response` sees it: the parsed JSON
object (the `result` dict), the HTTP status, and the `Retry-After`
header if present. -/
structure ServerResp where
  body : List (String × Json)
  status : Nat
  retryAfterHeader : Option String

/-- Model of `BaseClient._get_retry_after` (base.py lines 184-192): parse the
`Retry-After` header as an int, defaulting to 60 when the header is
absent, empty (falsy), or unparsable. -/
def getRetryAfter (h : Option String) : Int :=
  match h with
  | none => 60
  | some s => if s = "" then 60 else (pyInt s).getD 60

/-- The typed failures raised by `_handle_response`
(exceptions.py). `code` keeps the raw JSON value of `error.get("code", 0)`;
`generic` carries the whole error envelope as `details`. -/
inductive TxFailure where
  | rateLimit (message : String) (code : Json) (retryAfter : Int)
  | authentication (message : String) (code : Json)
  | notFound (message : String) (code : Json)
  | permission (message : String) (code : Json)
  | validation (message : String) (code : Json)
  | generic (message : String) (code : Json) (details : List (String × Json))

/-- Python equality `error_code == n`, where the code came from JSON. -/
def jEqNum (j : Json) (n : Int) : Bool :=
  match j with
  | Json.num m => m = n
  | _ => false

/-- The config-independent part of `_handle_response` (base.py lines
147-182) on a response whose body parsed as a JSON object: either the
body has no `"error"` key (success), or the error envelope is classified.
A rate-limited envelope is reported as `rateLimited` so that the caller
(the retry loop) can decide between sleeping/retrying and raising
`RateLimitError`; every other bucket raises unconditionally. `crash`
models a Python-level exception (`AttributeError` when the envelope or
its message has an unexpected type). -/
inductive Classified where
  | ok (body : List (String × Json))
  | crash (msg : String)
  | rateLimited (message : String) (code : Json)
  | failed (e : TxFailure)

/-- Classification chain of `_handle_response`, in source order:
rate limit (code 4/17/613 or "rate limit" in the lowered message), then
authentication (190/102/463/467), then not-found (803 or HTTP 404), then
permission (10/200/294), then validation (100), then the generic
`ThreatExchangeError` carrying the envelope as details. -/
def classifyResponse (resp : ServerResp) : Classified :=
  match getKey resp.body "error" with
  | none => Classified.ok resp.body
  | some e =>
    match e with
    | Json.obj env =>
      let codeJ := (getKey env "code").getD (Json.num 0)
      match (getKey env "message").getD (Json.str "Unknown error") with
      | Json.str msg =>
        if (jEqNum codeJ 4 || jEqNum codeJ 17 || jEqNum codeJ 613)
            || containsSub (lowerStr msg) "rate limit" then
          Classified.rateLimited msg codeJ
        else if jEqNum codeJ 190 || jEqNum codeJ 102 || jEqNum codeJ 463
            || jEqNum codeJ 467 then
          Classified.failed (TxFailure.authentication msg codeJ)
        else if jEqNum codeJ 803 || resp.status = 404 then
          Classified.failed (TxFailure.notFound msg codeJ)
        else if jEqNum codeJ 10 || jEqNum codeJ 200 || jEqNum codeJ 294 then
          Classified.failed (TxFailure.permission msg codeJ)
        else if jEqNum codeJ 100 then
          Classified.failed (TxFailure.validation msg codeJ)
        else
          Classified.failed (TxFailure.generic msg codeJ env)
      | _ => Classified.crash "AttributeError: message has no lower"
    | _ => Classified.crash "AttributeError: error envelope is not a dict"

/-- Result of a `_request` call: the JSON body on success, a raised
`TxFailure`, or a Python-level crash. -/
inductive ReqResult where
  | ok (body : List (String × Json))
  | err (e : TxFailure)
  | crash (msg : String)

/-- The `_request` / `_handle_response` retry recursion, one network
attempt per call. `server i` is the response to the attempt with
`retry_count = i`. The `gas` argument is a structural-recursion budget
kept equal to `max_retries - retry_count` by the entry point
`requestLoop`; since a retry happens only under `retry_count < max_retries`,
the `gas = 0` branch inside the guard is unreachable from the entry point
(it is written as the `RateLimitError` raise, the behaviour at an
exhausted budget). Returns the result together with the number of
network attempts made. -/
def requestLoopGo (cfg : ClientConfig) (server : Nat → ServerResp) :
    Nat → Nat → ReqResult × Nat
  | gas, rc =>
    let resp := server rc
    match classifyResponse resp with
    | Classified.ok b => (ReqResult.ok b, 1)
    | Classified.crash m => (ReqResult.crash m, 1)
    | Classified.failed e => (ReqResult.err e, 1)
    | Classified.rateLimited msg codeJ =>
      if cfg.retryOnRateLimit && decide (rc < cfg.maxRetries) then
        match gas with
        | g + 1 =>
          let r := requestLoopGo cfg server g (rc + 1)
          (r.1, r.2 + 1)
        | 0 => (ReqResult.err (TxFailure.rateLimit msg codeJ
                  (getRetryAfter resp.retryAfterHeader)), 1)
      else
        (ReqResult.err (TxFailure.rateLimit msg codeJ
          (getRetryAfter resp.retryAfterHeader)), 1)

/-- Model of `_request` starting at a given `retry_count` (attempt index). -/
def requestLoop (cfg : ClientConfig) (server : Nat → ServerResp)
    (rc : Nat) : ReqResult × Nat :=
  requestLoopGo cfg server (cfg.maxRetries - rc) rc

/-- A response body carrying a rate-limit error envelope. -/
def rlResp : ServerResp :=
  { body := [("error", Json.obj
      [("code", Json.num 4), ("message", Json.str "Application request limit reached")])]
    status := 400
    retryAfterHeader := some "5" }

/-- The `file` entry of the multipart `files=` argument: a
`(file name, file bytes)` pair, either of which can be Python `None`. -/
structure FilePart where
  name : Option String
  content : Option (List Nat)

/-- Truthiness of an optional Python string, as in `if file_path:`. -/
def truthyStr : Option String → Bool
  | none => false
  | some s => s ≠ ""

/-- Python `s.split("/")` on character lists. -/
def splitSlash : List Char → List (List Char)
  | [] => [[]]
  | c :: cs =>
    let r := splitSlash cs
    if c = '/' then [] :: r
    else match r with
      | x :: xs => (c :: x) :: xs
      | [] => [[c]]

/-- Python basename extraction `file_path.split("/")[-1]`. -/
def basename (p : String) : String := String.mk ((splitSlash p.data).getLastD [])

/-- Python `a or b` on a string and a fallback (empty string is falsy). -/
def orStr (a : Option String) (b : String) : String :=
  match a with
  | some s => if s = "" then b else s
  | none => b

/-- The selection of the uploaded file part in `_upload_file` (base.py
lines 286-302): a truthy `file_path` wins - the file is read from disk
(`fs` models the filesystem) and named `file_name or` the path's
basename; otherwise the `(file_name, file_content)` pair is used as-is,
even when both are `None`. -/
def mkFilePart (fs : String → List Nat) (filePath : Option String)
    (fileContent : Option (List Nat)) (fileName : Option String) : FilePart :=
  match filePath with
  | some p =>
    if p = "" then { name := fileName, content := fileContent }
    else { name := some (orStr fileName (basename p)), content := some (fs p) }
  | none => { name := fileName, content := fileContent }

/-- A network request issued during an upload call: the initial
multipart POST carries the file part; any retry issued through
`_request` is a plain form POST with no file. -/
structure IssuedReq where
  hasFile : Bool
  filePart : Option FilePart
  body : List (String × Json)

/-- The plain POST that `_request("POST", endpoint, None, data, rc)`
issues on a retry: `params` starts empty, receives the token, and is
merged into the form body; there is no `files=` argument. -/
def plainPost (tok : String) (d : List (String × Json)) : IssuedReq :=
  { hasFile := false
    filePart := none
    body := dictMerge (setKey [] "access_token" (Json.str tok)) d }

/-- Model of `BaseClient._upload_file` (base.py lines 262-304) as a request
trace: the form data receives the access token, exactly one multipart
POST is issued with the selected file part, and the response is handed
to `_handle_response` with `retry_count = 0` - so a rate-limited
response with retries enabled re-enters `_request` (with `params=None`,
the same data, and no file) and the retry loop runs from attempt 1. -/
def uploadTrace (cfg : ClientConfig) (fs : String → List Nat)
    (filePath : Option String) (fileContent : Option (List Nat))
    (fileName : Option String) (formData : List (String × Json))
    (server : Nat → ServerResp) : List IssuedReq × ReqResult :=
  let dataTok := setKey formData "access_token" (Json.str cfg.accessToken)
  let firstReq : IssuedReq :=
    { hasFile := true
      filePart := some (mkFilePart fs filePath fileContent fileName)
      body := dataTok }
  let resp := server 0
  match classifyResponse resp with
  | Classified.ok b => ([firstReq], ReqResult.ok b)
  | Classified.crash m => ([firstReq], ReqResult.crash m)
  | Classified.failed e => ([firstReq], ReqResult.err e)
  | Classified.rateLimited msg codeJ =>
    if cfg.retryOnRateLimit && decide (0 < cfg.maxRetries) then
      let r := requestLoop cfg server 1
      (firstReq :: List.replicate r.2 (plainPost cfg.accessToken dataTok), r.1)
    else
      ([firstReq], ReqResult.err (TxFailure.rateLimit msg codeJ
        (getRetryAfter resp.retryAfterHeader)))

/-- A successful (non-error) JSON response. -/
def okResp : ServerResp :=
  { body := [("success", Json.bool true)], status := 200, retryAfterHeader := none }

/-- The typed failure `_handle_response` raises on an error envelope when
the retry branch is not taken (retries disabled or budget exhausted):
the rate-limit bucket raises `RateLimitError` with the response's
retry-after, every other bucket raises its error directly. `none` for a
success body or a Python-level crash. -/
def classifyFailure (resp : ServerResp) : Option TxFailure :=
  match classifyResponse resp with
  | Classified.rateLimited msg codeJ =>
    some (TxFailure.rateLimit msg codeJ (getRetryAfter resp.retryAfterHeader))
  | Classified.failed e => some e
  | _ => none

/-- A response whose body is exactly the error envelope
`\x7b"error": \x7b"code": code, "message": msg\x7d\x7d` with the given HTTP status. -/
def mkErrResp (code : Int) (msg : String) (status : Nat)
    (ra : Option String) : ServerResp :=
  { body := [("error", Json.obj [("code", Json.num code), ("message", Json.str msg)])]
    status := status
    retryAfterHeader := ra }

/-- The spec's classification list, written as the spec enumerates it
(first match wins): 1. code in 4, 17, 613 or the message contains the
case-insensitive substring "rate limit" - RateLimit; 2. code in
190, 102, 463, 467 - Authentication; 3. code 803 or HTTP 404 -
NotFound; 4. code in 10, 200, 294 - Permission; 5. code 100 -
Validation; 6. otherwise Generic with the full envelope as detail. -/
def specClassify (code : Int) (msg : String) (status : Nat) (retryAfter : Int)
    (env : List (String × Json)) : TxFailure :=
  if code = 4 ∨ code = 17 ∨ code = 613
      ∨ containsSub (lowerStr msg) "rate limit" = true then
    TxFailure.rateLimit msg (Json.num code) retryAfter
  else if code = 190 ∨ code = 102 ∨ code = 463 ∨ code = 467 then
    TxFailure.authentication msg (Json.num code)
  else if code = 803 ∨ status = 404 then
    TxFailure.notFound msg (Json.num code)
  else if code = 10 ∨ code = 200 ∨ code = 294 then
    TxFailure.permission msg (Json.num code)
  else if code = 100 then
    TxFailure.validation msg (Json.num code)
  else
    TxFailure.generic msg (Json.num code) env

/-- The caller's `params` dict after `_request` returns or raises.
`params = params or \x7b\x7d` rebinds the local name: a `None` or empty
(falsy) caller dict is replaced by a fresh dict, so the caller's object
is untouched; a non-empty caller dict is aliased, and
`params["access_token"] = self.access_token` then mutates it in place. -/
def requestCallerParams (tok : String) :
    Option (List (String × Json)) → Option (List (String × Json))
  | none => none
  | some d =>
    if d.isEmpty then some d
    else some (setKey d "access_token" (Json.str tok))

/-- The caller's `params` dict after `_paginate` has started and issued
its first request: a falsy caller dict is replaced by a fresh dict
(caller's object untouched); a non-empty one is aliased, receives
`params["limit"] = DEFAULT_LIMIT` (500) when no `"limit"` key is
present, and - still aliased through the first `_get`/`_request` - the
`"access_token"` key. -/
def paginateCallerParams (tok : String) :
    Option (List (String × Json)) → Option (List (String × Json))
  | none => none
  | some d =>
    if d.isEmpty then some d
    else some (setKey
      (if hasKey d "limit" then d else setKey d "limit" (Json.num 500))
      "access_token" (Json.str tok))

/-- Model of `PaginatedResponse`: the (raw) `data` value, the `paging.next`
continuation reference, and `has_next` (the reference is not `None`). -/
structure PagResp where
  data : Json
  nextUrl : Option Json
  hasNext : Bool

/-- Python iteration `for item in x` on a JSON value: a list iterates
its elements, a string its one-character substrings, a dict its keys;
anything else raises `TypeError`. -/
def pyIter : Json → Except String (List Json)
  | Json.arr xs => Except.ok xs
  | Json.str s => Except.ok (s.data.map (fun ch => Json.str (String.mk [ch])))
  | Json.obj fs => Except.ok (fs.map (fun kv => Json.str kv.1))
  | _ => Except.error "TypeError: not iterable"

/-- Extraction of `paging.next` via `data.get("paging", default)`:
the empty-dict default only applies when the key is ABSENT - a present
`"paging"` of any non-dict type (including JSON null) raises
`AttributeError` on `.get`. A present `"next": null` is Python `None`. -/
def pagingNext (d : List (String × Json)) : Except String (Option Json) :=
  match (getKey d "paging").getD (Json.obj []) with
  | Json.obj ps =>
    Except.ok (match getKey ps "next" with
      | some Json.null => none
      | some j => some j
      | none => none)
  | _ => Except.error "AttributeError: paging is not a dict"

/-- Model of `PaginatedResponse.from_dict(data, item_factory)` (models.py lines
384-408): take the `"data"` value (defaulting to an empty list only when
the key is absent), map it through the factory when one is supplied
(iterating - a TypeError when the value is not iterable), then read
`paging.next` and set `has_next` to its presence. -/
def fromDict (d : List (String × Json)) (itemFactory : Option (Json → Json)) :
    Except String PagResp :=
  let itemsRaw := (getKey d "data").getD (Json.arr [])
  match itemFactory with
  | some f =>
    match pyIter itemsRaw with
    | Except.error e => Except.error e
    | Except.ok xs =>
      match pagingNext d with
      | Except.error e => Except.error e
      | Except.ok nu => Except.ok ⟨Json.arr (xs.map f), nu, nu.isSome⟩
  | none =>
    match pagingNext d with
    | Except.error e => Except.error e
    | Except.ok nu => Except.ok ⟨itemsRaw, nu, nu.isSome⟩

/-- The spec's reading of the extracted data array: the `data` array,
empty when absent. -/
def specPageData (d : List (String × Json)) : List Json :=
  match getKey d "data" with
  | some (Json.arr xs) => xs
  | _ => []

/-- The spec's reading of the continuation reference: `paging.next`,
absent when `paging` or `next` is missing (or null). -/
def specPageNext (d : List (String × Json)) : Option Json :=
  match getKey d "paging" with
  | some (Json.obj ps) =>
    (match getKey ps "next" with
      | some Json.null => none
      | some j => some j
      | none => none)
  | _ => none

/-- Split a character list at the first `?`: the part before (the
`scheme://netloc/path` that `_paginate` reassembles from `urlparse`) and
the raw query string after it. -/
def splitAtQm : List Char → List Char × List Char
  | [] => ([], [])
  | c :: cs =>
    if c = '?' then ([], cs)
    else
      let r := splitAtQm cs
      (c :: r.1, r.2)

/-- Model of `urlparse(next_url)` as `_paginate` uses it: the URL up to the first
`?` (reassembled from scheme, netloc and path) and the query string. -/
def splitUrl (u : String) : String × String :=
  let r := splitAtQm u.data
  (String.mk r.1, String.mk r.2)

/-- Python `query.split("&")` on character lists. -/
def splitAmp : List Char → List (List Char)
  | [] => [[]]
  | c :: cs =>
    let r := splitAmp cs
    if c = '&' then [] :: r
    else match r with
      | x :: xs => (c :: x) :: xs
      | [] => [[c]]

/-- Partition a field at its first `=`: `none` when no `=` occurs. -/
def splitEq1 : List Char → Option (List Char × List Char)
  | [] => none
  | c :: cs =>
    if c = '=' then some ([], cs)
    else match splitEq1 cs with
      | some kv => some (c :: kv.1, kv.2)
      | none => none

/-- Model of `parse_qs` step 1 (`parse_qsl`): split the query on `&`, partition
each field at its first `=`, and drop fields with no `=` or an empty
value (`keep_blank_values` is false by default). -/
def qsPairs (q : String) : List (String × String) :=
  (splitAmp q.data).filterMap (fun f =>
    match splitEq1 f with
    | some kv =>
      if kv.2 = [] then none else some (String.mk kv.1, String.mk kv.2)
    | none => none)

/-- Append a value to a key's list, in first-occurrence order. -/
def addMulti : List (String × List String) → String → String →
    List (String × List String)
  | [], k, v => [(k, [v])]
  | (k', vs) :: rest, k, v =>
    if k' = k then (k', vs ++ [v]) :: rest
    else (k', vs) :: addMulti rest k v

/-- Model of `parse_qs` step 2: group the pairs into a dict of value lists. -/
def groupQs (ps : List (String × String)) : List (String × List String) :=
  ps.foldl (fun acc kv => addMulti acc kv.1 kv.2) []

/-- The dict comprehension of `_paginate` line 243: flatten single-value
lists, keep multi-value lists as lists. -/
def flattenQs (g : List (String × List String)) : List (String × Json) :=
  g.map (fun kv => (kv.1,
    match kv.2 with
    | [v] => Json.str v
    | vs => Json.arr (vs.map Json.str)))

/-- The guard `if limit and count >= limit` after each yielded item.
A limit of 0 is falsy, so the guard never fires. -/
def limitHit (limit : Option Nat) (count : Nat) : Bool :=
  match limit with
  | none => false
  | some l => !(l == 0) && decide (l ≤ count)

/-- The `for item in response.data` loop body: yield, increment the
running count, and return early when the limit guard fires. Produces the
yielded items, whether the early return fired, and the final count. -/
def yieldItems (limit : Option Nat) : List Json → Nat → List Json × Bool × Nat
  | [], count => ([], false, count)
  | x :: xs, count =>
    let c1 := count + 1
    if limitHit limit c1 then ([x], true, c1)
    else
      let r := yieldItems limit xs c1
      (x :: r.1, r.2.1, r.2.2)

/-- The `while True` loop of `_paginate`, as a trace over a list of page
bodies (the successive JSON objects the server answers with). `req` is
the request about to be issued; each iteration records it, parses the
page via `from_dict` (no item factory), iterates `response.data`, and
either returns early on the limit guard, stops when `has_next` is
false, or follows `paging.next`: the continuation URL is split, its
query parsed and flattened, the access token re-attached, and the GET
re-issued through `_request` (which attaches the token again). A
Python-level raise (ill-typed page) or an exhausted oracle ends the
trace. Returns the issued requests and the yielded items. -/
def paginateLoop (tok : String) (limit : Option Nat) :
    List (List (String × Json)) → WireRequest → Nat →
      List WireRequest × List Json
  | [], req, _ => ([req], [])
  | page :: rest, req, count =>
    match fromDict page none with
    | Except.error _ => ([req], [])
    | Except.ok resp =>
      match pyIter resp.data with
      | Except.error _ => ([req], [])
      | Except.ok items =>
        let y := yieldItems limit items count
        if y.2.1 then ([req], y.1)
        else if resp.hasNext then
          match resp.nextUrl with
          | some (Json.str u) =>
            let su := splitUrl u
            let p := setKey (flattenQs (groupQs (qsPairs su.2)))
              "access_token" (Json.str tok)
            let r := paginateLoop tok limit rest
              (requestWire tok "GET" su.1 p none) y.2.2
            (req :: r.1, y.1 ++ r.2)
          | _ => ([req], y.1)
        else ([req], y.1)

/-- Model of `BaseClient._paginate`: default the `"limit"` query parameter to
`DEFAULT_LIMIT` (500) when absent, then run the loop starting from the
endpoint request (built by `_request`, which injects the token) with a
running count of 0. -/
def paginate (tok endpoint : String) (params0 : List (String × Json))
    (limit : Option Nat) (pages : List (List (String × Json))) :
    List WireRequest × List Json :=
  let p := if hasKey params0 "limit" then params0
           else setKey params0 "limit" (Json.num 500)
  paginateLoop tok limit pages (requestWire tok "GET" endpoint p none) 0

/-- A two-page scenario: page one holds items "a", "b" and a
continuation URL with its own query parameters; page two holds "c" and
no continuation. -/
def twoPages : List (List (String × Json)) :=
  [[("data", Json.arr [Json.str "a", Json.str "b"]),
    ("paging", Json.obj [("next",
      Json.str "https://graph.facebook.com/v19.0/ep?after=XYZ&limit=500")])],
   [("data", Json.arr [Json.str "c"])]]

/-- Assigning a key makes it present. -/
theorem hasKey_setKey_self (d : List (String × Json)) (k : String) (v : Json) :
    hasKey (setKey d k v) k = true := by
  induction d with
  | nil => simp [setKey, hasKey]
  | cons kv rest ih =>
    obtain ⟨k', v'⟩ := kv
    by_cases h : k' = k <;> simp [setKey, hasKey, h, ih]

/-- Key presence after an assignment. -/
theorem hasKey_setKey (d : List (String × Json)) (k k' : String) (v : Json) :
    hasKey (setKey d k v) k' = (decide (k = k') || hasKey d k') := by
  induction d with
  | nil => simp [setKey, hasKey, eq_comm]
  | cons kv rest ih =>
    obtain ⟨k₀, v₀⟩ := kv
    by_cases h : k₀ = k
    · subst h
      by_cases h' : k₀ = k' <;> simp [setKey, hasKey, h', eq_comm]
    · simp only [setKey, if_neg h, hasKey, ih]
      by_cases h' : k₀ = k' <;> simp [h', Bool.or_left_comm]

/-- Key presence in a Python dict merge. -/
theorem hasKey_dictMerge (a b : List (String × Json)) (k : String) :
    hasKey (dictMerge a b) k = (hasKey a k || hasKey b k) := by
  induction b generalizing a with
  | nil => simp [dictMerge, hasKey]
  | cons kv rest ih =>
    obtain ⟨k₀, v₀⟩ := kv
    simp only [dictMerge, List.foldl_cons] at *
    rw [ih (setKey a k₀ v₀), hasKey_setKey]
    by_cases h : k₀ = k <;> simp [hasKey, h, Bool.or_left_comm, Bool.or_comm]

/-- C3: for every error envelope (numeric code, message, HTTP status),
the classifier of `_handle_response` produces exactly one typed failure,
and it is the one picked by first match in the spec's priority order:
rate-limit codes 4, 17, 613 or a case-insensitive "rate limit" in the
message win first, then authentication 190, 102, 463, 467, then
not-found (803 or HTTP 404), then permission 10, 200, 294, then
validation (100), else Generic carrying the full envelope. -/
theorem classify_matches_spec_order (code : Int) (msg : String) (status : Nat)
    (ra : Option String) :
    classifyFailure (mkErrResp code msg status ra) =
      some (specClassify code msg status (getRetryAfter ra)
        [("code", Json.num code), ("message", Json.str msg)]) := by
  simp only [classifyFailure, classifyResponse, mkErrResp, getKey, jEqNum,
    specClassify, if_pos, Option.getD_some]
  norm_num
  split_ifs <;> simp_all [or_assoc]

/-- On an always-rate-limited server with retries enabled, the loop
performs one attempt per remaining budget unit plus the final raise. -/
theorem requestLoopGo_rl_on (cfg : ClientConfig) (server : Nat → ServerResp)
    (m : Nat → String) (c : Nat → Json)
    (h : ∀ i, classifyResponse (server i) = Classified.rateLimited (m i) (c i))
    (hon : cfg.retryOnRateLimit = true) :
    ∀ g rc, rc + g = cfg.maxRetries →
      requestLoopGo cfg server g rc =
        (ReqResult.err (TxFailure.rateLimit (m cfg.maxRetries) (c cfg.maxRetries)
          (getRetryAfter (server cfg.maxRetries).retryAfterHeader)), g + 1) := by
  intro g
  induction g with
  | zero =>
    intro rc hrc
    simp only [Nat.add_zero] at hrc
    subst hrc
    simp [requestLoopGo, h, hon]
  | succ g ih =>
    intro rc hrc
    have hlt : rc < cfg.maxRetries := by omega
    have hrec : (rc + 1) + g = cfg.maxRetries := by omega
    simp [requestLoopGo, h, hon, hlt, ih (rc + 1) hrec]

/-- On a rate-limited response with retries disabled, the loop raises
immediately after one attempt. -/
theorem requestLoopGo_rl_off (cfg : ClientConfig) (server : Nat → ServerResp)
    (m : Nat → String) (c : Nat → Json)
    (h : ∀ i, classifyResponse (server i) = Classified.rateLimited (m i) (c i))
    (hoff : cfg.retryOnRateLimit = false) (g rc : Nat) :
    requestLoopGo cfg server g rc =
      (ReqResult.err (TxFailure.rateLimit (m rc) (c rc)
        (getRetryAfter (server rc).retryAfterHeader)), 1) := by
  rw [requestLoopGo]
  simp [h, hoff]

/-- C5: with `retry_on_rate_limit` enabled and `max_retries = N`, if every
attempt's response carries a rate-limit error envelope, exactly N retries
occur (N + 1 total network attempts) and the call then fails with
`RateLimitError` carrying the retry-after of the last response; with
retries disabled the failure surfaces immediately after a single attempt. -/
theorem rate_limit_retry_budget (cfg : ClientConfig) (server : Nat → ServerResp)
    (m : Nat → String) (c : Nat → Json)
    (h : ∀ i, classifyResponse (server i) = Classified.rateLimited (m i) (c i)) :
    (cfg.retryOnRateLimit = true →
      requestLoop cfg server 0 =
        (ReqResult.err (TxFailure.rateLimit (m cfg.maxRetries) (c cfg.maxRetries)
          (getRetryAfter (server cfg.maxRetries).retryAfterHeader)),
         cfg.maxRetries + 1)) ∧
    (cfg.retryOnRateLimit = false →
      requestLoop cfg server 0 =
        (ReqResult.err (TxFailure.rateLimit (m 0) (c 0)
          (getRetryAfter (server 0).retryAfterHeader)), 1)) := by
  constructor
  · intro hon
    have := requestLoopGo_rl_on cfg server m c h hon (cfg.maxRetries - 0) 0 (by omega)
    simpa [requestLoop] using this
  · intro hoff
    have := requestLoopGo_rl_off cfg server m c h hoff (cfg.maxRetries - 0) 0
    simpa [requestLoop] using this

/-- Witness for `rate_limit_retry_budget`: a server that always answers
with the rate-limit envelope of `rlResp` and `max_retries = 3` leads to
4 attempts and a final `RateLimitError` with retry-after 5. -/
theorem rate_limit_retry_budget_witness :
    requestLoop ⟨"T", true, 3⟩ (fun _ => rlResp) 0 =
      (ReqResult.err (TxFailure.rateLimit "Application request limit reached"
        (Json.num 4) 5), 4) :=
  (rate_limit_retry_budget ⟨"T", true, 3⟩ (fun _ => rlResp)
    (fun _ => "Application request limit reached") (fun _ => Json.num 4)
    (fun _ => rfl)).1 rfl

/-- C2: evaluation of the upload path at a rate-limited server with
`retry_on_rate_limit=True, max_retries=3`: the retry controller IS
engaged - four requests go out in total, and every request after the
initial multipart POST is a plain POST carrying no file part, before the
`RateLimitError` finally surfaces. (`_upload_file` hands
`_handle_response` a `retry_count` of 0, so the rate-limit branch
re-enters `_request` without the `files=` argument.) -/
theorem upload_rate_limit_engages_retries :
    (uploadTrace ⟨"T", true, 3⟩ (fun _ => []) none (some [1, 2]) (some "f.bin") []
      (fun _ => rlResp)).1.length = 4 ∧
    ((uploadTrace ⟨"T", true, 3⟩ (fun _ => []) none (some [1, 2]) (some "f.bin") []
      (fun _ => rlResp)).1.drop 1).all (fun r => !r.hasFile) = true ∧
    (uploadTrace ⟨"T", true, 3⟩ (fun _ => []) none (some [1, 2]) (some "f.bin") []
      (fun _ => rlResp)).2 =
      ReqResult.err (TxFailure.rateLimit "Application request limit reached"
        (Json.num 4) 5) :=
  ⟨rfl, rfl, rfl⟩

/-- C8 counterexample: calling `_upload_file` with neither a path nor a
byte buffer does NOT fail with a Generic failure before any network
request - one multipart POST is issued anyway, with a `(None, None)`
file part, and the call succeeds when the server answers without an
error envelope. -/
theorem upload_no_source_still_requests :
    (uploadTrace ⟨"T", true, 3⟩ (fun _ => []) none none none []
      (fun _ => okResp)).1.length = 1 ∧
    ((uploadTrace ⟨"T", true, 3⟩ (fun _ => []) none none none []
      (fun _ => okResp)).1.headD ⟨false, none, []⟩).filePart =
      some ⟨none, none⟩ ∧
    (uploadTrace ⟨"T", true, 3⟩ (fun _ => []) none none none []
      (fun _ => okResp)).2 = ReqResult.ok [("success", Json.bool true)] :=
  ⟨rfl, rfl, rfl⟩

/-- C8 amended: `_upload_file` performs no validation of its file source
at all. For every combination of path/buffer - neither supplied, both
supplied, or exactly one - the multipart POST is issued first (the trace
is never empty and begins with the file-carrying request), with the file
part chosen by the truthy-path-wins rule of `mkFilePart`; no Generic
failure is raised before the request. -/
theorem upload_never_validates_source (cfg : ClientConfig)
    (fs : String → List Nat) (filePath : Option String)
    (fileContent : Option (List Nat)) (fileName : Option String)
    (formData : List (String × Json)) (server : Nat → ServerResp) :
    (uploadTrace cfg fs filePath fileContent fileName formData server).1 ≠ [] ∧
    ((uploadTrace cfg fs filePath fileContent fileName formData
      server).1.headD ⟨false, none, []⟩).hasFile = true ∧
    ((uploadTrace cfg fs filePath fileContent fileName formData
      server).1.headD ⟨false, none, []⟩).filePart =
      some (mkFilePart fs filePath fileContent fileName) := by
  unfold uploadTrace
  cases hc : classifyResponse (server 0) <;> simp [hc]
  split <;> simp

/-- C1 counterexample: for a POST the access token is NOT among the
outgoing query parameters - `_request` passes `params=None` to the
session for non-GET verbs, so the token travels exclusively in the
form-encoded body. -/
theorem post_token_not_in_query :
    tokenInQuery (requestWire "T" "POST" "ep"
      [("type", Json.str "THREAT_DESCRIPTOR")] none) = false ∧
    tokenInBody (requestWire "T" "POST" "ep"
      [("type", Json.str "THREAT_DESCRIPTOR")] none) = true :=
  ⟨rfl, rfl⟩

/-- C1 amended: `_request` injects the access token into its parameter
dict for every verb, but that dict is sent as the query-parameter set
only for GET; for every other verb (POST, DELETE) the session call
carries no query parameters at all and the token travels exclusively in
the form-encoded body, where the parameter dict (token included) is
merged with the data dict. -/
theorem token_query_only_for_get (tok method url : String)
    (params : List (String × Json)) (data : Option (List (String × Json))) :
    tokenInQuery (requestWire tok method url params data) = (method == "GET") ∧
    tokenInBody (requestWire tok method url params data) = (method != "GET") := by
  by_cases h : method = "GET" <;>
    simp [requestWire, tokenInQuery, tokenInBody, h, hasKey_setKey_self,
      hasKey_dictMerge]

/-- C10 counterexample: a caller-supplied EMPTY params dict is falsy, so
`params = params or \x7b\x7d` replaces it by a fresh dict and the caller's
mapping is left unchanged - it does not acquire the `"access_token"`
key after `_request`, contrary to the claim's unconditional reading. -/
theorem empty_caller_params_unchanged :
    requestCallerParams "T" (some []) = some [] ∧
    hasKey [] "access_token" = false ∧
    paginateCallerParams "T" (some []) = some [] ∧
    hasKey [] "limit" = false :=
  ⟨rfl, rfl, rfl, rfl⟩

/-- C10 amended: when the caller supplies a NON-EMPTY params dict,
`_request` and `_paginate` do mutate it in place: after `_request`
returns (or raises) the caller's mapping additionally contains
`"access_token"`, and after `_paginate` starts it additionally contains
the default `"limit"` key when one was absent (plus the token, added by
the first request through the same aliased dict). An empty or absent
dict is falsy and is replaced by a fresh dict instead. -/
theorem nonempty_caller_params_mutated (tok : String)
    (d : List (String × Json)) (h : d ≠ []) :
    hasKey ((requestCallerParams tok (some d)).getD []) "access_token" = true ∧
    hasKey ((paginateCallerParams tok (some d)).getD []) "access_token" = true ∧
    hasKey ((paginateCallerParams tok (some d)).getD []) "limit" = true := by
  have hne : d.isEmpty = false := by
    cases d with
    | nil => exact absurd rfl h
    | cons a t => rfl
  refine ⟨?_, ?_, ?_⟩ <;>
    by_cases hl : hasKey d "limit" = true <;>
      simp [requestCallerParams, paginateCallerParams, hne, hl,
        hasKey_setKey_self, hasKey_setKey]

/-- Witness for `nonempty_caller_params_mutated` at a one-entry dict. -/
theorem nonempty_caller_params_mutated_witness :
    hasKey ((requestCallerParams "T"
      (some [("fields", Json.str "id")])).getD []) "access_token" = true ∧
    hasKey ((paginateCallerParams "T"
      (some [("fields", Json.str "id")])).getD []) "access_token" = true ∧
    hasKey ((paginateCallerParams "T"
      (some [("fields", Json.str "id")])).getD []) "limit" = true :=
  nonempty_caller_params_mutated "T" [("fields", Json.str "id")] (by simp)

/-- C4 counterexample: `from_dict` with the identity transform DOES
raise on a malformed body - a body whose `"paging"` is JSON null makes
`data.get("paging", default)` return `None` (the key is present, so the
default does not apply) and `paging.get("next")` then raises
`AttributeError`; the claim's "never raises" fails. -/
theorem fromDict_raises_on_null_paging :
    fromDict [("paging", Json.null)] (some (fun x => x)) =
      Except.error "AttributeError: paging is not a dict" :=
  rfl

/-- C4 amended: `from_dict` with the identity transform never raises and
behaves as the spec describes PROVIDED each present field is well-typed:
when `"data"` is absent it defaults to empty (and a present array is
passed through), the continuation reference is `paging.next` (absent
when `paging` or `next` is missing), and `has_next` holds iff that
reference is present. A present but ill-typed field (`"paging"` not an
object, or a non-iterable `"data"`) raises instead of degrading. -/
theorem fromDict_wellTyped_matches_spec (d : List (String × Json))
    (hd : getKey d "data" = none ∨ ∃ xs, getKey d "data" = some (Json.arr xs))
    (hp : getKey d "paging" = none ∨
      ∃ ps, getKey d "paging" = some (Json.obj ps)) :
    fromDict d (some (fun x => x)) =
      Except.ok ⟨Json.arr (specPageData d), specPageNext d,
        (specPageNext d).isSome⟩ := by
  rcases hd with hd | ⟨xs, hd⟩ <;> rcases hp with hp | ⟨ps, hp⟩ <;>
    simp [fromDict, pagingNext, pyIter, specPageData, specPageNext, getKey, hd, hp]

/-- Witness for `fromDict_wellTyped_matches_spec` on a well-typed page
with one item and a continuation URL. -/
theorem fromDict_wellTyped_matches_spec_witness :
    fromDict [("data", Json.arr [Json.str "x"]),
        ("paging", Json.obj [("next", Json.str "https://u?limit=2")])]
      (some (fun x => x)) =
      Except.ok ⟨Json.arr [Json.str "x"], some (Json.str "https://u?limit=2"),
        true⟩ :=
  fromDict_wellTyped_matches_spec
    [("data", Json.arr [Json.str "x"]),
     ("paging", Json.obj [("next", Json.str "https://u?limit=2")])]
    (Or.inr ⟨[Json.str "x"], rfl⟩)
    (Or.inr ⟨[("next", Json.str "https://u?limit=2")], rfl⟩)

/-- Every request recorded by the pagination loop carries the token,
provided the request about to be issued does. -/
theorem paginateLoop_all_token (tok : String) (limit : Option Nat)
    (pages : List (List (String × Json))) :
    ∀ (req : WireRequest) (count : Nat), tokenInQuery req = true →
      ((paginateLoop tok limit pages req count).1.all tokenInQuery) = true := by
  induction pages with
  | nil => intro req count h; simp [paginateLoop, h]
  | cons page rest ih =>
    intro req count h
    cases hfd : fromDict page none with
    | error e => simp [paginateLoop, hfd, h]
    | ok resp =>
      cases hit : pyIter resp.data with
      | error e => simp [paginateLoop, hfd, hit, h]
      | ok items =>
        by_cases hy : (yieldItems limit items count).2.1 = true
        · simp [paginateLoop, hfd, hit, hy, h]
        · by_cases hn : resp.hasNext = true
          · cases hnu : resp.nextUrl with
            | none => simp [paginateLoop, hfd, hit, hy, hn, hnu, h]
            | some j =>
              cases j with
              | null => simp [paginateLoop, hfd, hit, hy, hn, hnu, h]
              | bool b => simp [paginateLoop, hfd, hit, hy, hn, hnu, h]
              | num n => simp [paginateLoop, hfd, hit, hy, hn, hnu, h]
              | arr xs => simp [paginateLoop, hfd, hit, hy, hn, hnu, h]
              | obj fs => simp [paginateLoop, hfd, hit, hy, hn, hnu, h]
              | str u =>
                have hrec := ih
                  (requestWire tok "GET" (splitUrl u).1
                    (setKey (flattenQs (groupQs (qsPairs (splitUrl u).2)))
                      "access_token" (Json.str tok)) none)
                  (yieldItems limit items count).2.2
                  (by simp [requestWire, tokenInQuery, hasKey_setKey_self])
                rw [List.all_eq_true] at hrec
                simp [paginateLoop, hfd, hit, hy, hn, hnu, h]
                intro x hx
                exact hrec x hx
          · simp [paginateLoop, hfd, hit, hy, hn, h]

/-- C7: invariant of every pagination traversal - every outgoing
request, the initial one and every continuation-URL-based one, carries
the client's access token among its query parameters; on a continuation
hop the token is re-attached after the continuation URL's own query
string is parsed and flattened (and again by `_request`), whatever
parameters that URL carried. -/
theorem paginate_every_request_carries_token (tok endpoint : String)
    (params0 : List (String × Json)) (limit : Option Nat)
    (pages : List (List (String × Json))) :
    ((paginate tok endpoint params0 limit pages).1.all tokenInQuery) = true := by
  unfold paginate
  exact paginateLoop_all_token tok limit pages _ 0
    (by simp [requestWire, tokenInQuery, hasKey_setKey_self])

/-- The yield loop under a limit of 0 equals the unlimited yield loop. -/
theorem yieldItems_limit_zero (items : List Json) :
    ∀ count : Nat, yieldItems (some 0) items count = yieldItems none items count := by
  induction items with
  | nil => intro count; rfl
  | cons x xs ih => intro count; simp [yieldItems, limitHit, ih]

/-- The pagination loop under a limit of 0 equals the unlimited loop. -/
theorem paginateLoop_limit_zero (tok : String)
    (pages : List (List (String × Json))) :
    ∀ (req : WireRequest) (count : Nat),
      paginateLoop tok (some 0) pages req count =
        paginateLoop tok none pages req count := by
  induction pages with
  | nil => intro req count; rfl
  | cons page rest ih =>
    intro req count
    cases hfd : fromDict page none with
    | error e => simp [paginateLoop, hfd]
    | ok resp =>
      cases hit : pyIter resp.data with
      | error e => simp [paginateLoop, hfd, hit]
      | ok items =>
        by_cases hn : resp.hasNext = true
        · cases hnu : resp.nextUrl with
          | none =>
            simp [paginateLoop, hfd, hit, hn, hnu, yieldItems_limit_zero]
          | some j =>
            cases j <;>
              simp [paginateLoop, hfd, hit, hn, hnu, yieldItems_limit_zero, ih]
        · simp [paginateLoop, hfd, hit, hn, yieldItems_limit_zero]

/-- C9: a limit of 0 is falsy, so `if limit and count >= limit` never
fires - `_paginate` with `limit=0` behaves exactly as if no limit had
been supplied, yielding every item of every page and issuing the same
requests. -/
theorem paginate_limit_zero_is_unlimited (tok endpoint : String)
    (params0 : List (String × Json)) (pages : List (List (String × Json))) :
    paginate tok endpoint params0 (some 0) pages =
      paginate tok endpoint params0 none pages := by
  unfold paginate
  exact paginateLoop_limit_zero tok pages _ 0

/-- The unlimited yield loop yields everything and adds the page size to
the count. -/
theorem yieldItems_none_eq (items : List Json) :
    ∀ count : Nat,
      yieldItems none items count = (items, false, count + items.length) := by
  induction items with
  | nil => intro count; rfl
  | cons x xs ih =>
    intro count
    simp [yieldItems, limitHit, ih, Prod.ext_iff]
    omega

/-- The limited yield loop takes a prefix, reports whether the limit was
reached, and caps the count at the limit. -/
theorem yieldItems_limit_take (l : Nat) (hl : 0 < l) (items : List Json) :
    ∀ count : Nat, count < l →
      yieldItems (some l) items count =
        (items.take (l - count), decide (l ≤ count + items.length),
          min l (count + items.length)) := by
  induction items with
  | nil =>
    intro count hc
    have h1 : ¬ l ≤ count := by omega
    have h2 : min l count = count := by omega
    simp [yieldItems, h1, h2]
  | cons x xs ih =>
    intro count hc
    have hl0 : (l == 0) = false := by simp; omega
    by_cases hhit : l ≤ count + 1
    · have htake : l - count = 1 := by omega
      have hdec : decide (l ≤ count + 1) = true := by simp [hhit]
      have hdec2 : l ≤ count + (xs.length + 1) := by omega
      have hmin : min l (count + (xs.length + 1)) = count + 1 := by omega
      simp [yieldItems, limitHit, hl0, hdec, htake, List.length_cons, hdec2, hmin]
      omega
    · have hc1 : count + 1 < l := by omega
      have hdec : decide (l ≤ count + 1) = false := by
        have : ¬ l ≤ count + 1 := hhit
        simp [this]
      have harith : count + 1 + xs.length = count + (xs.length + 1) := by omega
      have htake : l - count = (l - (count + 1)) + 1 := by omega
      rw [yieldItems]
      simp only [limitHit, hl0, Bool.not_false, Bool.true_and, hdec,
        Bool.false_eq_true, if_false, ih (count + 1) hc1, List.length_cons,
        harith, htake, List.take_succ_cons]

/-- The limited pagination loop yields exactly the first `l - count`
items of the unlimited loop. -/
theorem paginateLoop_limit_take (tok : String) (l : Nat) (hl : 0 < l)
    (pages : List (List (String × Json))) :
    ∀ (req : WireRequest) (count : Nat), count < l →
      (paginateLoop tok (some l) pages req count).2 =
        ((paginateLoop tok none pages req count).2).take (l - count) := by
  induction pages with
  | nil => intro req count hc; simp [paginateLoop]
  | cons page rest ih =>
    intro req count hc
    cases hfd : fromDict page none with
    | error e => simp [paginateLoop, hfd]
    | ok resp =>
      cases hit : pyIter resp.data with
      | error e => simp [paginateLoop, hfd, hit]
      | ok items =>
        rw [paginateLoop, paginateLoop]
        simp only [hfd, hit, yieldItems_none_eq items count,
          yieldItems_limit_take l hl items count hc, Bool.false_eq_true,
          if_false]
        by_cases hle : l ≤ count + items.length
        · have hdec : decide (l ≤ count + items.length) = true := by simp [hle]
          have htk : l - count ≤ items.length := by omega
          simp only [hdec, if_true]
          by_cases hn : resp.hasNext = true
          · cases hnu : resp.nextUrl with
            | none => simp [hn, hnu]
            | some j =>
              cases j with
              | null => simp [hn, hnu]
              | bool b => simp [hn, hnu]
              | num n => simp [hn, hnu]
              | arr ys => simp [hn, hnu]
              | obj fs => simp [hn, hnu]
              | str u => simp [hn, hnu, List.take_append_of_le_length htk]
          · simp [hn]
        · have hdec : decide (l ≤ count + items.length) = false := by
            have hx : ¬ l ≤ count + items.length := hle
            simp [hx]
          have htk : items.take (l - count) = items :=
            List.take_of_length_le (by omega)
          have hmin : min l (count + items.length) = count + items.length := by
            omega
          simp only [hdec, Bool.false_eq_true, if_false, hmin]
          by_cases hn : resp.hasNext = true
          · cases hnu : resp.nextUrl with
            | none => simp [hn, hnu, htk]
            | some j =>
              cases j with
              | null => simp [hn, hnu, htk]
              | bool b => simp [hn, hnu, htk]
              | num n => simp [hn, hnu, htk]
              | arr ys => simp [hn, hnu, htk]
              | obj fs => simp [hn, hnu, htk]
              | str u =>
                simp only [hn, hnu, if_true]
                rw [List.take_append_eq_append_take, htk,
                  ih _ (count + items.length) (by omega)]
                congr 2
                omega
          · simp [hn, htk]

/-- C6: for every pagination traversal with a limit of at least 1, the
yielded sequence is exactly the first `l` items of the unlimited
traversal - so exactly `min l (total available)` items are yielded, and
the guard fires immediately when the running count reaches `l`, even
mid-page; in particular, with `limit=1` against the two-page scenario
exactly one item is yielded and only one request is issued (the second
page is never fetched, against the two requests of the unlimited
traversal). -/
theorem paginate_limit_yields_min (tok endpoint : String)
    (params0 : List (String × Json)) (pages : List (List (String × Json)))
    (l : Nat) (h : 1 ≤ l) :
    (paginate tok endpoint params0 (some l) pages).2 =
      ((paginate tok endpoint params0 none pages).2).take l ∧
    (paginate tok endpoint params0 (some l) pages).2.length =
      min l ((paginate tok endpoint params0 none pages).2).length ∧
    (paginate "T" "ep" [] (some 1) twoPages).1.length = 1 ∧
    (paginate "T" "ep" [] (some 1) twoPages).2 = [Json.str "a"] ∧
    (paginate "T" "ep" [] none twoPages).1.length = 2 := by
  have hmain : (paginate tok endpoint params0 (some l) pages).2 =
      ((paginate tok endpoint params0 none pages).2).take l := by
    unfold paginate
    have := paginateLoop_limit_take tok l h pages
      (requestWire tok "GET" endpoint
        (if hasKey params0 "limit" then params0
         else setKey params0 "limit" (Json.num 500)) none) 0 h
    simpa using this
  refine ⟨hmain, ?_, rfl, rfl, rfl⟩
  rw [hmain, List.length_take]

/-- Witness for `paginate_limit_yields_min` at `limit=1` against the
two-page scenario. -/
theorem paginate_limit_yields_min_witness :
    (paginate "T" "ep" [] (some 1) twoPages).2 =
      ((paginate "T" "ep" [] none twoPages).2).take 1 ∧
    (paginate "T" "ep" [] (some 1) twoPages).2.length =
      min 1 ((paginate "T" "ep" [] none twoPages).2).length ∧
    (paginate "T" "ep" [] (some 1) twoPages).1.length = 1 ∧
    (paginate "T" "ep" [] (some 1) twoPages).2 = [Json.str "a"] ∧
    (paginate "T" "ep" [] none twoPages).1.length = 2 :=
  paginate_limit_yields_min "T" "ep" [] twoPages 1 (by decide)
